import Mathlib

/-!
# Sister Leagues dashboard — verification of the scoring engine

Shallow embedding of `src/SL_app.py` (classes `GoogleSheetsManager`,
`ESPNFantasyAPI`, `ScoreCalculator`, and the display helpers).

Modelling conventions:
* Python values that act as team identifiers are modelled as `String`
  (Python is dynamically typed; the score dictionaries use prefixed
  string keys such as `"brown_1"`).
* Python floats (fantasy scores) are modelled as rationals `ℚ`; the
  claims under study only compare and copy scores.
* A Python `dict` is modelled as an association list in insertion
  order with unique keys; `dict.get` is `dictGet`/`dictGetD`.
* `{**a, **b}` is `pyMerge` (keys of `a` in order with values
  overridden by `b`, then the new keys of `b` in order).
* Python truthiness of an optional string (`if intra_opponent:`) is
  `pyTruthy`: `None` and `""` are falsy.
* `sorted(items, key=lambda x: x[1], reverse=True)` is the stable
  descending insertion sort `sortDescending`.
* `pandas.DataFrame.sort_values(col, ascending=False)` reverses an
  ascending argsort (pandas `nargsort` reverses the index order for
  descending sorts), so it is modelled as the reverse of a stable
  ascending sort.
-/

/-- A row of the intra-league matchup table built by
`ESPNFantasyAPI.get_matchups`. -/
structure Matchup where
  week : Nat
  away_team_id : String
  home_team_id : String
  league : String
deriving DecidableEq, Repr

/-- A row of the cross-league `"matchups"` worksheet consumed by
`ScoreCalculator.calculate_weekly_scores`. -/
structure CrossMatchup where
  week : Nat
  brown_league_manager : String
  red_league_manager : String
deriving DecidableEq, Repr

/-- A row of the `"teams"` worksheet (`all_teams_df`). -/
structure Team where
  team_id : String
  team_name : String
  league : String
deriving DecidableEq, Repr

/-- One record appended to `league_data` by
`ScoreCalculator._process_league_scores` (a `WeeklyOutcome` row). -/
structure WeeklyRow where
  week : Nat
  team_id : String
  league : String
  actual_score : ℚ
  intra_opponent : Option String
  intra_opponent_score : ℚ
  cross_opponent : Option String
  cross_opponent_score : ℚ
  intra_league_points : Nat
  cross_league_points : Nat
  top6_points : Nat
  total_weekly_points : Nat
  weekly_losses : Nat
  week_complete : Bool
deriving DecidableEq, Repr

/-- `d.get(k)` on a Python dict modelled as an association list. -/
def dictGet (d : List (String × ℚ)) (k : String) : Option ℚ :=
  (d.find? (fun p => p.1 == k)).map (·.2)

/-- `d.get(k, v)`. -/
def dictGetD (d : List (String × ℚ)) (k : String) (v : ℚ) : ℚ :=
  (dictGet d k).getD v

/-- `{**a, **b}`: the keys of `a` in order, values overridden by `b`
where present, followed by the keys of `b` not in `a`, in order
(`calculate_weekly_scores`, line `all_scores = {**brown_scores, **red_scores}`). -/
def pyMerge (a b : List (String × ℚ)) : List (String × ℚ) :=
  a.map (fun p => (p.1, dictGetD b p.1 p.2)) ++
    b.filter (fun p => !(a.any (fun q => q.1 == p.1)))

/-- Python truthiness of an optional string: `None` and `""` are falsy. -/
def pyTruthy : Option String → Bool
  | none => false
  | some s => s != ""

/-- Stable descending insertion step: a new element goes in front of
the first strictly smaller (or equal-or-smaller, keeping earlier
elements first) element. -/
def insertDescending (x : String × ℚ) : List (String × ℚ) → List (String × ℚ)
  | [] => [x]
  | y :: ys => if x.2 ≥ y.2 then x :: y :: ys else y :: insertDescending x ys

/-- `sorted(all_scores.items(), key=lambda x: x[1], reverse=True)`:
stable sort, descending by score. -/
def sortDescending (l : List (String × ℚ)) : List (String × ℚ) :=
  l.foldr insertDescending []

/-- The top-6 slice `[id for id, score in sorted_scores[:6]]` of
`calculate_weekly_scores`. -/
def top6Of (allScores : List (String × ℚ)) : List String :=
  ((sortDescending allScores).take 6).map (·.1)

/-- The dataframe lookup
`all_teams_df[(team_name == name) & (league == lg)].iloc[0]['team_id']`
used to resolve a manager display name, `none` when the frame is empty. -/
def findTeamId (teams : List Team) (name league : String) : Option String :=
  (teams.find? (fun t => t.team_name == name && t.league == league)).map (·.team_id)

/-- The `cross_opponents` dict assignments made by
`_process_league_scores`: one `(team, opponent)` assignment per
cross-matchup row whose two manager names both resolve; rows with an
unresolved name are skipped. Later assignments to the same key
overwrite earlier ones, which `lastAssignGet` accounts for. -/
def buildCrossAssignments (league : String) (teams : List Team)
    (crossMatchups : List CrossMatchup) : List (String × String) :=
  crossMatchups.filterMap (fun m =>
    match findTeamId teams m.brown_league_manager "brown",
          findTeamId teams m.red_league_manager "red" with
    | some b, some r => some (if league == "brown" then (b, r) else (r, b))
    | _, _ => none)

/-- `cross_opponents.get(team_id)`: the last assignment wins, as for a
Python dict built by repeated key assignment. -/
def lastAssignGet (assigns : List (String × String)) (k : String) : Option String :=
  (assigns.reverse.find? (fun p => p.1 == k)).map (·.2)

/-- One iteration of the intra-opponent search loop of
`_process_league_scores`: an `away == team` or `home == team` match
overwrites the accumulator, otherwise it is kept. -/
def intraStep (teamId : String) (acc : Option String) (m : Matchup) : Option String :=
  if m.away_team_id == teamId then some m.home_team_id
  else if m.home_team_id == teamId then some m.away_team_id
  else acc

/-- The intra-opponent search loop over `week_matchups`
(the last matching pair wins). -/
def findIntraOpponent (weekMatchups : List Matchup) (teamId : String) : Option String :=
  weekMatchups.foldl (intraStep teamId) none

/-- The body of the `for team_id, score in scores.items()` loop of
`ScoreCalculator._process_league_scores`: builds one `WeeklyRow` for
one score entry. `otherScores` stands for the other league's live
scores re-fetched for the cross-opponent lookup. -/
def processTeam (scores otherScores : List (String × ℚ)) (weekMatchups : List Matchup)
    (crossAssigns : List (String × String)) (league : String) (week : Nat)
    (weekComplete : Bool) (top6Teams : List String) (entry : String × ℚ) : WeeklyRow :=
  let teamId := entry.1
  let score := entry.2
  let intraOpponent := findIntraOpponent weekMatchups teamId
  let intraOpponentScore : ℚ :=
    match intraOpponent with
    | some o => dictGetD scores o 0
    | none => 0
  let crossOpponent := lastAssignGet crossAssigns teamId
  let crossOpponentScore : ℚ :=
    if pyTruthy crossOpponent then
      match crossOpponent with
      | some o => dictGetD otherScores o 0
      | none => 0
    else 0
  let intraPoints : Nat :=
    if weekComplete && (pyTruthy intraOpponent && decide (score > intraOpponentScore))
    then 1 else 0
  let crossPoints : Nat :=
    if weekComplete && (pyTruthy crossOpponent && decide (score > crossOpponentScore))
    then 1 else 0
  let top6Points : Nat :=
    if weekComplete && top6Teams.contains teamId then 1 else 0
  let wins := intraPoints + crossPoints + top6Points
  let losses := if weekComplete then 3 - wins else 0
  { week := week
    team_id := teamId
    league := league
    actual_score := score
    intra_opponent := intraOpponent
    intra_opponent_score := intraOpponentScore
    cross_opponent := crossOpponent
    cross_opponent_score := crossOpponentScore
    intra_league_points := intraPoints
    cross_league_points := crossPoints
    top6_points := top6Points
    total_weekly_points := wins
    weekly_losses := losses
    week_complete := weekComplete }

/-- `ScoreCalculator._process_league_scores`: filter the matchup table
to the week, build the cross-opponent mapping, and emit one row per
entry of the league's score dict, in dict order. -/
def processLeagueScores (scores otherScores : List (String × ℚ))
    (matchups : List Matchup) (crossMatchups : List CrossMatchup)
    (teams : List Team) (league : String) (week : Nat)
    (weekComplete : Bool) (top6Teams : List String) : List WeeklyRow :=
  let weekMatchups := matchups.filter (fun m => m.week == week)
  let crossAssigns := buildCrossAssignments league teams crossMatchups
  scores.map (processTeam scores otherScores weekMatchups crossAssigns league week
    weekComplete top6Teams)

/-- `ScoreCalculator.calculate_weekly_scores` on already-materialised
inputs: the two leagues' score snapshots, their matchup tables, the
cross-matchup worksheet, and the week-complete flag
(`is_week_complete` is wall-clock I/O, received here as a boolean). -/
def calculateWeeklyScores (teams : List Team)
    (brownScores redScores : List (String × ℚ))
    (brownMatchups redMatchups : List Matchup)
    (crossMatchups : List CrossMatchup)
    (week : Nat) (weekComplete : Bool) : List WeeklyRow :=
  let weekCrossMatchups := crossMatchups.filter (fun m => m.week == week)
  let allScores := pyMerge brownScores redScores
  let top6Teams := if weekComplete then top6Of allScores else []
  processLeagueScores brownScores redScores brownMatchups weekCrossMatchups teams
      "brown" week weekComplete top6Teams ++
    processLeagueScores redScores brownScores redMatchups weekCrossMatchups teams
      "red" week weekComplete top6Teams

/-- `GoogleSheetsManager.update_worksheet` on the `"weekly_scores"`
sheet, as invoked by `refresh_data`: `worksheet.clear()` followed by
writing the new dataframe, so the stored content afterwards is exactly
the new rows, whatever was stored before. -/
def updateWorksheet (_stored : List WeeklyRow) (df : List WeeklyRow) : List WeeklyRow :=
  df

/-- One row of the standings table built by `display_league_standings`
after the aggregation, rename and merge steps: `wins` is the summed
`total_weekly_points`, `losses` the summed `weekly_losses`, and
`total_points` the summed `actual_score` (renamed columns). -/
structure StandingsRow where
  team_id : String
  wins : Nat
  losses : Nat
  total_points : ℚ
  team_name : String
deriving DecidableEq, Repr

/-- Ascending insertion of a string key, by the lexicographic `compare`. -/
def insertAscString (x : String) : List String → List String
  | [] => [x]
  | y :: ys =>
    if compare x y == Ordering.lt then x :: y :: ys else y :: insertAscString x ys

/-- Sort string keys ascending (`pandas.groupby` sorts the group keys). -/
def sortStringsAsc (l : List String) : List String :=
  l.foldl (fun acc x => insertAscString x acc) []

/-- The distinct keys of a column, in first-occurrence order. -/
def uniqueKeys (l : List String) : List String :=
  l.foldl (fun acc k => if acc.contains k then acc else acc ++ [k]) []

/-- Column sum of `total_weekly_points` over a group. -/
def sumWins (rows : List WeeklyRow) : Nat :=
  rows.foldl (fun s r => s + r.total_weekly_points) 0

/-- Column sum of `weekly_losses` over a group. -/
def sumLosses (rows : List WeeklyRow) : Nat :=
  rows.foldl (fun s r => s + r.weekly_losses) 0

/-- Column sum of `actual_score` over a group. -/
def sumScore (rows : List WeeklyRow) : ℚ :=
  rows.foldl (fun s r => s + r.actual_score) 0

/-- Look a `team_id` up in the teams sheet; the sheet has one row per
`team_id`, so the first match is the only one. -/
def findTeamName (teams : List Team) (id : String) : Option String :=
  (teams.find? (fun t => t.team_id == id)).map (·.team_name)

/-- Stable ascending insertion by the `wins` column. -/
def insertAscWins (x : StandingsRow) : List StandingsRow → List StandingsRow
  | [] => [x]
  | y :: ys => if x.wins < y.wins then x :: y :: ys else y :: insertAscWins x ys

/-- Stable ascending sort by `wins`. -/
def sortAscWins (l : List StandingsRow) : List StandingsRow :=
  l.foldl (fun acc x => insertAscWins x acc) []

/-- `standings.sort_values('wins', ascending=False)`: pandas descending
sorts reverse the ascending argsort order (`nargsort`), so this is the
reverse of the stable ascending sort. -/
def pandasSortWinsDesc (l : List StandingsRow) : List StandingsRow :=
  (sortAscWins l).reverse

/-- `display_league_standings`: filter the stored weekly history to one
league, group by `team_id` (keys ascending) summing the three columns,
rename, inner-merge with the teams sheet (dropping ids with no team
row, keeping left order), and sort by `wins` descending. The returned
list order is the displayed rank order. -/
def displayLeagueStandings (weeklyScores : List WeeklyRow) (allTeams : List Team)
    (league : String) : List StandingsRow :=
  let leagueData := weeklyScores.filter (fun r => r.league == league)
  let keys := sortStringsAsc (uniqueKeys (leagueData.map (·.team_id)))
  let merged : List StandingsRow := keys.filterMap (fun k =>
    match findTeamName allTeams k with
    | none => none
    | some nm =>
      let rows := leagueData.filter (fun r => r.team_id == k)
      some { team_id := k, wins := sumWins rows, losses := sumLosses rows,
             total_points := sumScore rows, team_name := nm })
  pandasSortWinsDesc merged

/-- A stored week-1 outcome row (concrete input for the persistence model). -/
def week1StoredRow : WeeklyRow :=
  { week := 1, team_id := "brown_1", league := "brown", actual_score := 100
    intra_opponent := some "brown_2", intra_opponent_score := 90
    cross_opponent := none, cross_opponent_score := 0
    intra_league_points := 1, cross_league_points := 0, top6_points := 1
    total_weekly_points := 2, weekly_losses := 1, week_complete := true }

/-- A freshly computed week-2 outcome row (concrete input for the
persistence model). -/
def week2FreshRow : WeeklyRow :=
  { week := 2, team_id := "brown_1", league := "brown", actual_score := 80
    intra_opponent := some "brown_3", intra_opponent_score := 95
    cross_opponent := none, cross_opponent_score := 0
    intra_league_points := 0, cross_league_points := 0, top6_points := 0
    total_weekly_points := 0, weekly_losses := 3, week_complete := true }

/-- Brown snapshot with six teams all scoring 10 (boundary-tie input). -/
def tieBrownScores : List (String × ℚ) :=
  [("b1", 10), ("b2", 10), ("b3", 10), ("b4", 10), ("b5", 10), ("b6", 10)]

/-- Red snapshot with one team also scoring 10 (ties the 6th score). -/
def tieRedScores : List (String × ℚ) := [("r1", 10)]

/-- A two-team weekly history where both teams have 2 weekly points but
different actual scores (concrete input for the standings sort). -/
def equalWinsHistory : List WeeklyRow :=
  [{ week := 1, team_id := "a", league := "brown", actual_score := 100
     intra_opponent := none, intra_opponent_score := 0
     cross_opponent := none, cross_opponent_score := 0
     intra_league_points := 1, cross_league_points := 0, top6_points := 1
     total_weekly_points := 2, weekly_losses := 1, week_complete := true },
   { week := 1, team_id := "b", league := "brown", actual_score := 50
     intra_opponent := none, intra_opponent_score := 0
     cross_opponent := none, cross_opponent_score := 0
     intra_league_points := 1, cross_league_points := 1, top6_points := 0
     total_weekly_points := 2, weekly_losses := 1, week_complete := true }]

/-- Teams sheet for `equalWinsHistory`. -/
def equalWinsTeams : List Team :=
  [{ team_id := "a", team_name := "Alice", league := "brown" },
   { team_id := "b", team_name := "Bob", league := "brown" }]

/-- A two-team snapshot used as a concrete input. -/
def xyScores : List (String × ℚ) := [("x", 5), ("y", 3)]

/-- A single week-1 matchup pairing `"x"` against `"y"`. -/
def xyMatchup : Matchup :=
  { week := 1, away_team_id := "x", home_team_id := "y", league := "brown" }

/-! ## Helper lemmas -/

/-- Every row of `processLeagueScores` is `processTeam` applied to some
entry of the league's score dict. -/
theorem mem_processLeagueScores {r : WeeklyRow}
    {scores otherScores : List (String × ℚ)} {matchups : List Matchup}
    {crossMatchups : List CrossMatchup} {teams : List Team} {league : String}
    {week : Nat} {weekComplete : Bool} {top6Teams : List String}
    (h : r ∈ processLeagueScores scores otherScores matchups crossMatchups teams
          league week weekComplete top6Teams) :
    ∃ e ∈ scores,
      r = processTeam scores otherScores (matchups.filter (fun m => m.week == week))
            (buildCrossAssignments league teams crossMatchups) league week
            weekComplete top6Teams e := by
  simp only [processLeagueScores, List.mem_map] at h
  obtain ⟨e, he, hr⟩ := h
  exact ⟨e, he, hr.symm⟩

/-- Every row of `calculateWeeklyScores` is `processTeam` applied to an
entry of one of the two leagues' score dicts, with the shared top-6
list and the week-filtered cross matchups. -/
theorem mem_calculateWeeklyScores {r : WeeklyRow} {teams : List Team}
    {brownScores redScores : List (String × ℚ)}
    {brownMatchups redMatchups : List Matchup} {crossMatchups : List CrossMatchup}
    {week : Nat} {weekComplete : Bool}
    (h : r ∈ calculateWeeklyScores teams brownScores redScores brownMatchups
          redMatchups crossMatchups week weekComplete) :
    ∃ scores otherScores matchups league, ∃ e ∈ scores,
      ((scores = brownScores ∧ otherScores = redScores ∧ matchups = brownMatchups ∧
          league = "brown") ∨
        (scores = redScores ∧ otherScores = brownScores ∧ matchups = redMatchups ∧
          league = "red")) ∧
      r = processTeam scores otherScores (matchups.filter (fun m => m.week == week))
            (buildCrossAssignments league teams
              (crossMatchups.filter (fun m => m.week == week))) league week
            weekComplete
            (if weekComplete then top6Of (pyMerge brownScores redScores) else []) e := by
  simp only [calculateWeeklyScores, List.mem_append] at h
  rcases h with h | h
  · obtain ⟨e, he, hr⟩ := mem_processLeagueScores h
    exact ⟨brownScores, redScores, brownMatchups, "brown", e, he,
      Or.inl ⟨rfl, rfl, rfl, rfl⟩, hr⟩
  · obtain ⟨e, he, hr⟩ := mem_processLeagueScores h
    exact ⟨redScores, brownScores, redMatchups, "red", e, he,
      Or.inr ⟨rfl, rfl, rfl, rfl⟩, hr⟩

/-! ## C1 — persistence of a refresh -/

/-- C1: the claim says a refresh of period P replaces only the rows
whose period equals P and leaves every other period's stored rows
unchanged. The code (`refresh_data` → `GoogleSheetsManager.update_worksheet`)
clears the whole `weekly_scores` sheet and writes only the refreshed
period's rows: at the concrete input below, a stored week-1 row is
destroyed by a week-2 refresh. -/
theorem c1_refresh_wipes_other_periods :
    updateWorksheet [week1StoredRow] [week2FreshRow] = [week2FreshRow] ∧
    week1StoredRow.week = 1 ∧ week2FreshRow.week = 2 ∧
    ([week1StoredRow].filter (fun r => r.week == 1)).length = 1 ∧
    ((updateWorksheet [week1StoredRow] [week2FreshRow]).filter
        (fun r => r.week == 1)).length = 0 :=
  ⟨rfl, rfl, rfl, rfl, rfl⟩

/-! ## C4 — combining the two leagues' snapshots -/

/-- C4 counterexample: when the key `"k"` appears in both snapshots,
`{**brown_scores, **red_scores}` silently keeps the red value; no
data-integrity fault is reported (the merge has no error path at all). -/
theorem c4_counterexample :
    pyMerge [("k", (1 : ℚ))] [("k", 2)] = [("k", 2)] ∧
    dictGet (pyMerge [("k", (1 : ℚ))] [("k", 2)]) "k" = some 2 := by
  constructor <;> rfl

/-- C4 amended: the combination is a right-biased Python dict merge.
When no key appears in both snapshots it is exactly the disjoint union
(brown entries in order, then red entries in order); an overlapping key
silently receives the red league's value (see the counterexample). -/
theorem c4_disjoint_union (a b : List (String × ℚ))
    (h : ∀ p ∈ a, ∀ q ∈ b, p.1 ≠ q.1) :
    pyMerge a b = a ++ b := by
  unfold pyMerge
  have hmap : a.map (fun p => (p.1, dictGetD b p.1 p.2)) = a := by
    have : ∀ p ∈ a, (p.1, dictGetD b p.1 p.2) = p := by
      intro p hp
      have hfind : b.find? (fun q => q.1 == p.1) = none := by
        rw [List.find?_eq_none]
        intro q hq
        simpa using (h p hp q hq).symm
      simp [dictGetD, dictGet, hfind]
    calc a.map (fun p => (p.1, dictGetD b p.1 p.2)) = a.map id :=
          List.map_congr_left fun p hp => this p hp
      _ = a := List.map_id a
  have hfilter : b.filter (fun p => !(a.any (fun q => q.1 == p.1))) = b := by
    rw [List.filter_eq_self]
    intro q hq
    simp only [Bool.not_eq_true', List.any_eq_false]
    intro p hp
    simpa using h p hp q hq
  rw [hmap, hfilter]

/-- Witness for `c4_disjoint_union` at concrete disjoint snapshots. -/
theorem c4_disjoint_union_witness :
    (∀ p ∈ [("brown_1", (7 : ℚ))], ∀ q ∈ [("red_101", (9 : ℚ))], p.1 ≠ q.1) ∧
    pyMerge [("brown_1", (7 : ℚ))] [("red_101", (9 : ℚ))] =
      [("brown_1", (7 : ℚ))] ++ [("red_101", (9 : ℚ))] :=
  ⟨by decide, c4_disjoint_union _ _ (by decide)⟩

/-! ## C8 — determinism of the per-period computation -/

/-- C8: recomputing a period is deterministic — two runs of
`calculate_weekly_scores` on identical materialised inputs (teams,
both score snapshots, both matchup tables, the cross-pairing list, the
closedness flag) produce identical row lists, and in particular an
identical list of teams awarded the top-6 point. -/
theorem c8_deterministic (teams₁ teams₂ : List Team)
    (bs₁ bs₂ rs₁ rs₂ : List (String × ℚ)) (bm₁ bm₂ rm₁ rm₂ : List Matchup)
    (cm₁ cm₂ : List CrossMatchup) (wk₁ wk₂ : Nat) (wc₁ wc₂ : Bool)
    (ht : teams₁ = teams₂) (hb : bs₁ = bs₂) (hr : rs₁ = rs₂)
    (hbm : bm₁ = bm₂) (hrm : rm₁ = rm₂) (hcm : cm₁ = cm₂)
    (hwk : wk₁ = wk₂) (hwc : wc₁ = wc₂) :
    calculateWeeklyScores teams₁ bs₁ rs₁ bm₁ rm₁ cm₁ wk₁ wc₁ =
      calculateWeeklyScores teams₂ bs₂ rs₂ bm₂ rm₂ cm₂ wk₂ wc₂ ∧
    ((calculateWeeklyScores teams₁ bs₁ rs₁ bm₁ rm₁ cm₁ wk₁ wc₁).filter
        (fun r => r.top6_points == 1)).map (·.team_id) =
      ((calculateWeeklyScores teams₂ bs₂ rs₂ bm₂ rm₂ cm₂ wk₂ wc₂).filter
        (fun r => r.top6_points == 1)).map (·.team_id) := by
  subst ht hb hr hbm hrm hcm hwk hwc
  exact ⟨rfl, rfl⟩

/-- Witness for `c8_deterministic` at a concrete input. -/
theorem c8_deterministic_witness :
    calculateWeeklyScores [] [("brown_1", (5 : ℚ))] [] [] [] [] 1 true =
      calculateWeeklyScores [] [("brown_1", (5 : ℚ))] [] [] [] [] 1 true ∧
    ((calculateWeeklyScores [] [("brown_1", (5 : ℚ))] [] [] [] [] 1 true).filter
        (fun r => r.top6_points == 1)).map (·.team_id) =
      ((calculateWeeklyScores [] [("brown_1", (5 : ℚ))] [] [] [] [] 1 true).filter
        (fun r => r.top6_points == 1)).map (·.team_id) :=
  c8_deterministic [] [] [("brown_1", 5)] [("brown_1", 5)] [] [] [] [] [] [] [] []
    1 1 true true rfl rfl rfl rfl rfl rfl rfl rfl

/-! ## C5 — totals invariant of every produced row -/

/-- C5: every row produced by `calculate_weekly_scores` satisfies the
totals invariant: when the week is complete, `total_weekly_points` is
the sum of the three point fields (each at most 1, so at most 3) and
`weekly_losses = 3 - total_weekly_points`; when it is not complete,
all three point fields, the total and the losses are 0. -/
theorem c5_totals_invariant (teams : List Team) (bs rs : List (String × ℚ))
    (bm rm : List Matchup) (cm : List CrossMatchup) (wk : Nat) (wc : Bool)
    (r : WeeklyRow) (hr : r ∈ calculateWeeklyScores teams bs rs bm rm cm wk wc) :
    (r.week_complete = true →
      r.total_weekly_points =
        r.intra_league_points + r.cross_league_points + r.top6_points ∧
      r.total_weekly_points ≤ 3 ∧
      r.weekly_losses = 3 - r.total_weekly_points) ∧
    (r.week_complete = false →
      r.intra_league_points = 0 ∧ r.cross_league_points = 0 ∧ r.top6_points = 0 ∧
      r.total_weekly_points = 0 ∧ r.weekly_losses = 0) := by
  obtain ⟨scores, other, mts, lg, e, he, -, hr⟩ := mem_calculateWeeklyScores hr
  subst hr
  cases wc with
  | false => simp [processTeam]
  | true =>
    constructor
    · intro _
      refine ⟨rfl, ?_, rfl⟩
      simp only [processTeam]
      split_ifs <;> omega
    · intro h
      exact absurd h (by simp [processTeam])

/-- Witness for `c5_totals_invariant` at a concrete closed week. -/
theorem c5_totals_invariant_witness :
    ∃ r ∈ calculateWeeklyScores [] [("brown_1", (5 : ℚ))] [] [] [] [] 1 true,
      (r.week_complete = true →
        r.total_weekly_points =
          r.intra_league_points + r.cross_league_points + r.top6_points ∧
        r.total_weekly_points ≤ 3 ∧
        r.weekly_losses = 3 - r.total_weekly_points) ∧
      (r.week_complete = false →
        r.intra_league_points = 0 ∧ r.cross_league_points = 0 ∧ r.top6_points = 0 ∧
        r.total_weekly_points = 0 ∧ r.weekly_losses = 0) := by
  refine ⟨(calculateWeeklyScores [] [("brown_1", (5 : ℚ))] [] [] [] [] 1 true).head
      (by decide), by decide, ?_⟩
  exact c5_totals_invariant [] [("brown_1", 5)] [] [] [] [] 1 true _ (by decide)

/-! ## C2 — the top-6 cutoff -/

/-- C2 counterexample: seven teams all score 10 in a closed week; the
score at the 6th position ties the 7th team's score, yet the code's
fixed-count slice `sorted_scores[:6]` awards the top-6 point to the
first six pool entries only. Teams `"b6"` and `"r1"` have equal scores
but different `top6_points`, refuting the score-based-cutoff claim. -/
theorem c2_counterexample :
    (calculateWeeklyScores [] tieBrownScores tieRedScores [] [] [] 1 true).map
        (fun r => (r.team_id, r.actual_score, r.top6_points)) =
      [("b1", 10, 1), ("b2", 10, 1), ("b3", 10, 1), ("b4", 10, 1), ("b5", 10, 1),
        ("b6", 10, 1), ("r1", 10, 0)] := by
  decide

/-- C2 amended: in a closed week the teams awarded `top6_points = 1`
are exactly the first six entries of the pooled snapshot stably sorted
descending by score (a fixed-count slice); teams tying exactly at the
boundary can be split, in pool insertion order. -/
theorem c2_count_based_top6 (teams : List Team) (bs rs : List (String × ℚ))
    (bm rm : List Matchup) (cm : List CrossMatchup) (wk : Nat)
    (r : WeeklyRow) (hr : r ∈ calculateWeeklyScores teams bs rs bm rm cm wk true) :
    (r.top6_points = 1 ↔ r.team_id ∈ top6Of (pyMerge bs rs)) ∧ r.top6_points ≤ 1 := by
  obtain ⟨scores, other, mts, lg, e, he, -, hr⟩ := mem_calculateWeeklyScores hr
  subst hr
  by_cases hc : e.1 ∈ top6Of (pyMerge bs rs) <;>
    simp [processTeam, List.elem_iff, hc]

/-- Witness for `c2_count_based_top6` at a concrete closed week. -/
theorem c2_count_based_top6_witness :
    ∃ r ∈ calculateWeeklyScores [] [("brown_1", (5 : ℚ))] [] [] [] [] 1 true,
      (r.top6_points = 1 ↔
        r.team_id ∈ top6Of (pyMerge [("brown_1", (5 : ℚ))] [])) ∧
      r.top6_points ≤ 1 := by
  refine ⟨(calculateWeeklyScores [] [("brown_1", (5 : ℚ))] [] [] [] [] 1 true).head
      (by decide), by decide, ?_⟩
  exact c2_count_based_top6 [] [("brown_1", 5)] [] [] [] [] 1 _ (by decide)

/-! ## C3 — intra-league opponent resolution -/

/-- A matching matchup makes one search step return a result. -/
theorem intraStep_isSome_of_match (t : String) (acc : Option String) (m : Matchup)
    (h : m.away_team_id = t ∨ m.home_team_id = t) :
    (intraStep t acc m).isSome = true := by
  unfold intraStep
  rcases h with h | h
  · simp [h]
  · by_cases hc : m.away_team_id == t
    · simp [hc]
    · simp [hc, h]

/-- A search step never discards an already-found opponent. -/
theorem intraStep_isSome_of_acc (t : String) (acc : Option String) (m : Matchup)
    (h : acc.isSome = true) : (intraStep t acc m).isSome = true := by
  unfold intraStep
  split
  · rfl
  · split
    · rfl
    · exact h

/-- The search loop finds an opponent whenever some matchup of the list
contains the team on either side (or the accumulator already holds one). -/
theorem foldl_intraStep_isSome (t : String) :
    ∀ (l : List Matchup) (acc : Option String),
      ((∃ m ∈ l, m.away_team_id = t ∨ m.home_team_id = t) ∨ acc.isSome = true) →
      (l.foldl (intraStep t) acc).isSome = true := by
  intro l
  induction l with
  | nil =>
    intro acc h
    rcases h with ⟨m, hm, -⟩ | h
    · exact absurd hm (List.not_mem_nil m)
    · exact h
  | cons m ms ih =>
    intro acc h
    rw [List.foldl_cons]
    apply ih
    rcases h with ⟨m', hm', hmatch⟩ | hacc
    · rcases List.mem_cons.mp hm' with rfl | hms
      · exact Or.inr (intraStep_isSome_of_match t acc m' hmatch)
      · exact Or.inl ⟨m', hms, hmatch⟩
    · exact Or.inr (intraStep_isSome_of_acc t acc m hacc)

/-- C3: for a team whose league matchup list for the period contains a
pair with the team on either side, `_process_league_scores` resolves an
intra opponent (not `None`), and the row's `intra_opponent_score` is
that opponent's value in the league's own score snapshot, defaulting to
0 when the opponent is absent from it (`scores.get(intra_opponent, 0)`). -/
theorem c3_intra_resolution (scores otherScores : List (String × ℚ))
    (matchups : List Matchup) (crossMatchups : List CrossMatchup)
    (teams : List Team) (league : String) (week : Nat) (weekComplete : Bool)
    (top6Teams : List String) (e : String × ℚ) (he : e ∈ scores)
    (h : ∃ m ∈ matchups.filter (fun m => m.week == week),
          m.away_team_id = e.1 ∨ m.home_team_id = e.1) :
    ∃ b, ∃ r ∈ processLeagueScores scores otherScores matchups crossMatchups teams
        league week weekComplete top6Teams,
      r.team_id = e.1 ∧ r.intra_opponent = some b ∧
      r.intra_opponent_score = dictGetD scores b 0 := by
  have hsome : (findIntraOpponent (matchups.filter (fun m => m.week == week)) e.1).isSome
      = true :=
    foldl_intraStep_isSome e.1 _ none (Or.inl h)
  obtain ⟨b, hb⟩ := Option.isSome_iff_exists.mp hsome
  refine ⟨b, processTeam scores otherScores (matchups.filter (fun m => m.week == week))
      (buildCrossAssignments league teams crossMatchups) league week weekComplete
      top6Teams e, ?_, ?_, ?_, ?_⟩
  · exact List.mem_map_of_mem _ he
  · rfl
  · simp [processTeam, hb]
  · simp [processTeam, hb]

/-- Witness for `c3_intra_resolution`: team `"brown_1"` appears on the
away side of the single week-1 matchup. -/
theorem c3_intra_resolution_witness :
    ∃ b, ∃ r ∈ processLeagueScores [("brown_1", (5 : ℚ)), ("brown_2", 3)] []
        [{ week := 1, away_team_id := "brown_1", home_team_id := "brown_2",
           league := "brown" }] [] [] "brown" 1 true [],
      r.team_id = "brown_1" ∧ r.intra_opponent = some b ∧
      r.intra_opponent_score = dictGetD [("brown_1", (5 : ℚ)), ("brown_2", 3)] b 0 :=
  c3_intra_resolution [("brown_1", 5), ("brown_2", 3)] []
    [{ week := 1, away_team_id := "brown_1", home_team_id := "brown_2",
       league := "brown" }] [] [] "brown" 1 true [] ("brown_1", 5)
    (by decide) (by decide)

/-! ## C9 — unresolved display names degrade to no cross opponent -/

/-- A cross-pairing row either of whose manager names fails to resolve
in the teams sheet contributes no assignment to the `cross_opponents`
mapping (recovery is local to the row: the remaining rows resolve as
before). -/
theorem buildCrossAssignments_skips_failed_row (league : String)
    (teams : List Team) (m : CrossMatchup) (rest : List CrossMatchup)
    (hm : findTeamId teams m.brown_league_manager "brown" = none ∨
          findTeamId teams m.red_league_manager "red" = none) :
    buildCrossAssignments league teams (m :: rest) =
      buildCrossAssignments league teams rest := by
  rw [buildCrossAssignments, buildCrossAssignments]
  refine List.filterMap_cons_none ?_
  rcases hb : findTeamId teams m.brown_league_manager "brown" with _ | b <;>
    rcases hred : findTeamId teams m.red_league_manager "red" with _ | r <;>
    first
      | rfl
      | (rcases hm with h | h <;> simp_all)

/-- C9: resolution failure of a team's cross pairing is recovered
locally, per team. A pairing row whose display name is not found in the
teams sheet is simply skipped when the `cross_opponents` mapping is
built (`buildCrossAssignments_skips_failed_row` applied inside this
statement), so a team left without an assignment — its own pairing rows
all failed or were absent, while other rows may resolve normally — gets
a row with `cross_opponent = None`, `cross_opponent_score = 0` and
`cross_league_points = 0`, and the computation still produces its full
row set (one row per score entry) rather than raising. -/
theorem c9_unresolved_name_recovered (scores otherScores : List (String × ℚ))
    (matchups : List Matchup) (crossMatchups : List CrossMatchup)
    (teams : List Team) (league : String) (week : Nat) (weekComplete : Bool)
    (top6Teams : List String) (m : CrossMatchup) (rest : List CrossMatchup)
    (e : String × ℚ) (he : e ∈ scores)
    (hm : findTeamId teams m.brown_league_manager "brown" = none ∨
          findTeamId teams m.red_league_manager "red" = none)
    (hnone : lastAssignGet (buildCrossAssignments league teams crossMatchups) e.1
      = none) :
    (buildCrossAssignments league teams (m :: rest) =
      buildCrossAssignments league teams rest) ∧
    (∃ r ∈ processLeagueScores scores otherScores matchups crossMatchups teams
        league week weekComplete top6Teams,
      r.team_id = e.1 ∧ r.cross_opponent = none ∧ r.cross_opponent_score = 0 ∧
        r.cross_league_points = 0) ∧
    (processLeagueScores scores otherScores matchups crossMatchups teams league week
        weekComplete top6Teams).length = scores.length := by
  refine ⟨buildCrossAssignments_skips_failed_row league teams m rest hm, ?_, ?_⟩
  · refine ⟨processTeam scores otherScores (matchups.filter (fun m => m.week == week))
        (buildCrossAssignments league teams crossMatchups) league week weekComplete
        top6Teams e, List.mem_map_of_mem _ he, rfl, ?_, ?_, ?_⟩
    · exact hnone
    · simp [processTeam, hnone, pyTruthy]
    · simp [processTeam, hnone, pyTruthy]
  · simp [processLeagueScores]

/-- The teams sheet for the C9 witness: both leagues have one known
manager. -/
def c9Teams : List Team :=
  [{ team_id := "brown_1", team_name := "Alice", league := "brown" },
   { team_id := "red_101", team_name := "Bob", league := "red" }]

/-- The cross-pairing rows for the C9 witness: the first row names
managers absent from the teams sheet, the second resolves normally to
the pair Alice/Bob. -/
def c9CrossMatchups : List CrossMatchup :=
  [{ week := 1, brown_league_manager := "Ghost", red_league_manager := "Casper" },
   { week := 1, brown_league_manager := "Alice", red_league_manager := "Bob" }]

/-- Witness for `c9_unresolved_name_recovered`: the `"Ghost"`/`"Casper"`
row fails resolution while the `"Alice"`/`"Bob"` row resolves, and team
`"brown_2"` — which no resolving row pairs — is recovered locally. -/
theorem c9_unresolved_name_recovered_witness :
    (buildCrossAssignments "brown" c9Teams
        ({ week := 1, brown_league_manager := "Ghost",
           red_league_manager := "Casper" } ::
          [{ week := 1, brown_league_manager := "Alice",
             red_league_manager := "Bob" }]) =
      buildCrossAssignments "brown" c9Teams
        [{ week := 1, brown_league_manager := "Alice",
           red_league_manager := "Bob" }]) ∧
    (∃ r ∈ processLeagueScores [("brown_1", (5 : ℚ)), ("brown_2", 4)] []
        [] c9CrossMatchups c9Teams "brown" 1 true [],
      r.team_id = "brown_2" ∧ r.cross_opponent = none ∧
        r.cross_opponent_score = 0 ∧ r.cross_league_points = 0) ∧
    (processLeagueScores [("brown_1", (5 : ℚ)), ("brown_2", 4)] []
        [] c9CrossMatchups c9Teams "brown" 1 true []).length =
      [("brown_1", (5 : ℚ)), ("brown_2", 4)].length :=
  c9_unresolved_name_recovered [("brown_1", 5), ("brown_2", 4)] [] []
    c9CrossMatchups c9Teams "brown" 1 true []
    { week := 1, brown_league_manager := "Ghost", red_league_manager := "Casper" }
    [{ week := 1, brown_league_manager := "Alice", red_league_manager := "Bob" }]
    ("brown_2", 4) (by decide) (by decide) (by decide)

/-! ## C10 — one outcome row per snapshot key -/

/-- C10: `_process_league_scores` emits exactly one row per entry of
the league's score snapshot, in snapshot order (so a team absent from
the snapshot gets no row at all), while an absent team referenced by a
present team's matchup still appears as that row's opponent with
opponent score 0 (`scores.get(opponent, 0)` on a missing key). -/
theorem c10_one_row_per_snapshot_key (scores otherScores : List (String × ℚ))
    (matchups : List Matchup) (crossMatchups : List CrossMatchup)
    (teams : List Team) (league : String) (week : Nat) (weekComplete : Bool)
    (top6Teams : List String) (t : String) (e : String × ℚ)
    (he : e ∈ scores)
    (hop : findIntraOpponent (matchups.filter (fun m => m.week == week)) e.1 = some t)
    (habsent : t ∉ scores.map (·.1)) :
    ((processLeagueScores scores otherScores matchups crossMatchups teams league
        week weekComplete top6Teams).map (·.team_id) = scores.map (·.1)) ∧
    (∀ r ∈ processLeagueScores scores otherScores matchups crossMatchups teams
        league week weekComplete top6Teams, r.team_id ≠ t) ∧
    (∃ r ∈ processLeagueScores scores otherScores matchups crossMatchups teams
        league week weekComplete top6Teams,
      r.team_id = e.1 ∧ r.intra_opponent = some t ∧ r.intra_opponent_score = 0) := by
  have hids : (processLeagueScores scores otherScores matchups crossMatchups teams
      league week weekComplete top6Teams).map (·.team_id) = scores.map (·.1) := by
    simp only [processLeagueScores, List.map_map]
    rfl
  have hget : dictGet scores t = none := by
    rw [dictGet, Option.map_eq_none', List.find?_eq_none]
    intro p hp
    simp only [beq_iff_eq]
    intro hpt
    exact habsent (hpt ▸ List.mem_map_of_mem (·.1) hp)
  refine ⟨hids, ?_, ?_⟩
  · intro r hr hrt
    apply habsent
    rw [← hids]
    exact hrt ▸ List.mem_map_of_mem (·.team_id) hr
  · refine ⟨processTeam scores otherScores (matchups.filter (fun m => m.week == week))
        (buildCrossAssignments league teams crossMatchups) league week weekComplete
        top6Teams e, List.mem_map_of_mem _ he, rfl, ?_, ?_⟩
    · simp [processTeam, hop]
    · simp [processTeam, hop, dictGetD, hget]

/-- Witness for `c10_one_row_per_snapshot_key`: `"brown_2"` is the
week-1 opponent of `"brown_1"` but missing from the snapshot. -/
theorem c10_one_row_per_snapshot_key_witness :
    ((processLeagueScores [("brown_1", (5 : ℚ))] []
        [{ week := 1, away_team_id := "brown_1", home_team_id := "brown_2",
           league := "brown" }] [] [] "brown" 1 true []).map (·.team_id) =
      [("brown_1", (5 : ℚ))].map (·.1)) ∧
    (∀ r ∈ processLeagueScores [("brown_1", (5 : ℚ))] []
        [{ week := 1, away_team_id := "brown_1", home_team_id := "brown_2",
           league := "brown" }] [] [] "brown" 1 true [], r.team_id ≠ "brown_2") ∧
    (∃ r ∈ processLeagueScores [("brown_1", (5 : ℚ))] []
        [{ week := 1, away_team_id := "brown_1", home_team_id := "brown_2",
           league := "brown" }] [] [] "brown" 1 true [],
      r.team_id = "brown_1" ∧ r.intra_opponent = some "brown_2" ∧
        r.intra_opponent_score = 0) :=
  c10_one_row_per_snapshot_key [("brown_1", 5)] []
    [{ week := 1, away_team_id := "brown_1", home_team_id := "brown_2",
       league := "brown" }] [] [] "brown" 1 true [] "brown_2" ("brown_1", 5)
    (by decide) (by decide) (by decide)

/-! ## C6 — strict-greater win rule on a resolved intra pair -/

/-- The intra-league point of a processed team whose resolved opponent
has a snapshot score: 1 exactly when the team's score is strictly
greater. -/
theorem processTeam_intra_points_eq (scores otherScores : List (String × ℚ))
    (wm : List Matchup) (ca : List (String × String)) (league : String) (week : Nat)
    (top6Teams : List String) (a b : String) (sa sb : ℚ)
    (hfa : findIntraOpponent wm a = some b) (hb : dictGet scores b = some sb)
    (hnb : b ≠ "") :
    (processTeam scores otherScores wm ca league week true top6Teams
        (a, sa)).intra_league_points = if sb < sa then 1 else 0 := by
  simp [processTeam, hfa, dictGetD, hb, pyTruthy, hnb, gt_iff_lt]

/-- C6: in a closed week, for a resolved intra-league matchup pair
`(a, b)` with both scores present in the snapshot, each side's
`intra_league_points` is 1 exactly when its score strictly exceeds the
other's, a tie gives 0 to both, the pair's points sum to at most 1,
and the same strict-greater rule (given a truthy opponent) governs
`cross_league_points` against the cross opponent's score. -/
theorem c6_intra_strict_win (scores otherScores : List (String × ℚ))
    (wm : List Matchup) (ca : List (String × String)) (league : String) (week : Nat)
    (top6Teams : List String) (a b : String) (sa sb : ℚ)
    (hfa : findIntraOpponent wm a = some b) (hfb : findIntraOpponent wm b = some a)
    (ha : dictGet scores a = some sa) (hb : dictGet scores b = some sb)
    (hna : a ≠ "") (hnb : b ≠ "") :
    ((processTeam scores otherScores wm ca league week true top6Teams
        (a, sa)).intra_league_points = 1 ↔ sb < sa) ∧
    ((processTeam scores otherScores wm ca league week true top6Teams
        (b, sb)).intra_league_points = 1 ↔ sa < sb) ∧
    (sa = sb →
      (processTeam scores otherScores wm ca league week true top6Teams
        (a, sa)).intra_league_points = 0 ∧
      (processTeam scores otherScores wm ca league week true top6Teams
        (b, sb)).intra_league_points = 0) ∧
    (processTeam scores otherScores wm ca league week true top6Teams
        (a, sa)).intra_league_points +
      (processTeam scores otherScores wm ca league week true top6Teams
        (b, sb)).intra_league_points ≤ 1 ∧
    ((processTeam scores otherScores wm ca league week true top6Teams
        (a, sa)).cross_league_points = 1 ↔
      pyTruthy (processTeam scores otherScores wm ca league week true top6Teams
          (a, sa)).cross_opponent = true ∧
      (processTeam scores otherScores wm ca league week true top6Teams
          (a, sa)).cross_opponent_score < sa) := by
  have hA := processTeam_intra_points_eq scores otherScores wm ca league week
    top6Teams a b sa sb hfa hb hnb
  have hB := processTeam_intra_points_eq scores otherScores wm ca league week
    top6Teams b a sb sa hfb ha hna
  refine ⟨?_, ?_, ?_, ?_, ?_⟩
  · rw [hA]; by_cases h : sb < sa <;> simp [h]
  · rw [hB]; by_cases h : sa < sb <;> simp [h]
  · intro h
    subst h
    rw [hA, hB]
    simp [lt_irrefl]
  · rw [hA, hB]
    split_ifs with h1 h2
    · exact absurd h2 (lt_asymm h1)
    all_goals omega
  · by_cases hco : pyTruthy (lastAssignGet ca a) = true
    · by_cases hlt : (processTeam scores otherScores wm ca league week true top6Teams
          (a, sa)).cross_opponent_score < sa
      · simp only [processTeam] at hlt ⊢
        simp [hco, hlt, gt_iff_lt]
      · simp only [processTeam] at hlt ⊢
        simp [hco, hlt, gt_iff_lt]
    · simp only [processTeam]
      simp [hco]

/-- Witness for `c6_intra_strict_win`: `"x"` and `"y"` are a resolved
week-1 pair with scores 5 and 3. -/
theorem c6_intra_strict_win_witness :
    ((processTeam xyScores [] [xyMatchup] [] "brown" 1 true []
        ("x", 5)).intra_league_points = 1 ↔ (3 : ℚ) < 5) ∧
    ((processTeam xyScores [] [xyMatchup] [] "brown" 1 true []
        ("y", 3)).intra_league_points = 1 ↔ (5 : ℚ) < 3) ∧
    ((5 : ℚ) = 3 →
      (processTeam xyScores [] [xyMatchup] [] "brown" 1 true []
        ("x", 5)).intra_league_points = 0 ∧
      (processTeam xyScores [] [xyMatchup] [] "brown" 1 true []
        ("y", 3)).intra_league_points = 0) ∧
    (processTeam xyScores [] [xyMatchup] [] "brown" 1 true []
        ("x", 5)).intra_league_points +
      (processTeam xyScores [] [xyMatchup] [] "brown" 1 true []
        ("y", 3)).intra_league_points ≤ 1 ∧
    ((processTeam xyScores [] [xyMatchup] [] "brown" 1 true []
        ("x", 5)).cross_league_points = 1 ↔
      pyTruthy (processTeam xyScores [] [xyMatchup] [] "brown" 1 true []
          ("x", 5)).cross_opponent = true ∧
      (processTeam xyScores [] [xyMatchup] [] "brown" 1 true []
          ("x", 5)).cross_opponent_score < 5) :=
  c6_intra_strict_win xyScores [] [xyMatchup] [] "brown" 1 [] "x" "y" 5 3
    (by decide) (by decide) (by decide) (by decide) (by decide) (by decide)

/-! ## C7 — standings ranking order -/

/-- Membership through the ascending insertion. -/
theorem mem_insertAscWins {z x : StandingsRow} {l : List StandingsRow}
    (h : z ∈ insertAscWins x l) : z = x ∨ z ∈ l := by
  induction l with
  | nil => simpa [insertAscWins] using h
  | cons y ys ih =>
    rw [insertAscWins] at h
    split at h
    · rcases List.mem_cons.mp h with rfl | h
      · exact Or.inl rfl
      · exact Or.inr h
    · rcases List.mem_cons.mp h with rfl | h
      · exact Or.inr (List.mem_cons_self _ _)
      · rcases ih h with rfl | h
        · exact Or.inl rfl
        · exact Or.inr (List.mem_cons_of_mem _ h)

/-- The ascending insertion preserves sortedness by `wins`. -/
theorem pairwise_insertAscWins {x : StandingsRow} {l : List StandingsRow}
    (h : l.Pairwise (fun a b => a.wins ≤ b.wins)) :
    (insertAscWins x l).Pairwise (fun a b => a.wins ≤ b.wins) := by
  induction l with
  | nil => simp [insertAscWins]
  | cons y ys ih =>
    rw [List.pairwise_cons] at h
    obtain ⟨hy, hys⟩ := h
    rw [insertAscWins]
    split
    · rw [List.pairwise_cons]
      refine ⟨?_, List.pairwise_cons.mpr ⟨hy, hys⟩⟩
      intro z hz
      rcases List.mem_cons.mp hz with rfl | hz
      · omega
      · have := hy z hz
        omega
    · rw [List.pairwise_cons]
      refine ⟨?_, ih hys⟩
      intro z hz
      rcases mem_insertAscWins hz with rfl | hz
      · omega
      · exact hy z hz

/-- The fold of ascending insertions is sorted by `wins`. -/
theorem pairwise_sortAscWins (l : List StandingsRow) :
    (sortAscWins l).Pairwise (fun a b => a.wins ≤ b.wins) := by
  rw [sortAscWins]
  suffices h : ∀ (acc : List StandingsRow),
      acc.Pairwise (fun a b => a.wins ≤ b.wins) →
      (l.foldl (fun acc x => insertAscWins x acc) acc).Pairwise
        (fun a b => a.wins ≤ b.wins) from h [] (by simp)
  induction l with
  | nil => intro acc hacc; simpa using hacc
  | cons y ys ih =>
    intro acc hacc
    rw [List.foldl_cons]
    exact ih _ (pairwise_insertAscWins hacc)

/-- C7 counterexample: in this two-row history both teams have 2 weekly
points, team `"a"` has the larger summed score (100 vs 50), yet the
displayed standings rank `"b"` first — the secondary ordering claimed
by the spec does not exist (`sort_values('wins', ascending=False)`
sorts by the single key `wins`). -/
theorem c7_counterexample :
    (displayLeagueStandings equalWinsHistory equalWinsTeams "brown").map
        (fun r => (r.team_id, r.wins, r.total_points)) =
      [("b", 2, 50), ("a", 2, 100)] ∧ (50 : ℚ) < 100 := by
  constructor
  · with_unfolding_all decide
  · norm_num

/-- C7 amended: the standings produced by `display_league_standings`
are sorted by `wins` (the summed `total_weekly_points`) descending
only; rows with equal `wins` are not ordered by their summed score
(see the counterexample). -/
theorem c7_sorted_by_wins_desc (weeklyScores : List WeeklyRow)
    (allTeams : List Team) (league : String) :
    (displayLeagueStandings weeklyScores allTeams league).Pairwise
      (fun x y => y.wins ≤ x.wins) := by
  rw [displayLeagueStandings]
  rw [pandasSortWinsDesc, List.pairwise_reverse]
  exact pairwise_sortAscWins _
